import Mathlib

/-!
Shallow embedding of the `current_dir` crate: process-wide guarded access to
the operating system's current working directory (CWD), with RAII scope
guards and a mutex-protected scope stack.

The OS is modelled as an explicit state (`Os`): reading the CWD succeeds iff
`getOk` is set, and setting the CWD to `p` succeeds iff `p` is in the list of
existing directories `dirs`.  Stateful Rust methods (`&mut self`) become Lean
functions returning the result paired with the updated state; a call that
fails leaves the state exactly as the Rust code does.
-/

namespace CurrentDir

/-- A directory path (`std::path::PathBuf`). -/
abbrev Path := String

/-- An OS-level error (`std::io::Error`): either the target directory of a
set-current-directory call does not exist, or reading the current directory
failed. -/
inductive OsError where
  | notFound (p : Path)
  | getFailed
deriving DecidableEq, Repr

/-- The state of the operating system as seen by this crate: the current
working directory, the set of directories that exist (so `set` succeeds iff
the target is listed), and whether reading the current directory succeeds. -/
structure Os where
  cwd : Path
  dirs : List Path
  getOk : Bool
deriving DecidableEq, Repr

/-- Embeds `std::env::current_dir()`: read the OS current working directory. -/
def osGet (os : Os) : Except OsError Path :=
  if os.getOk then .ok os.cwd else .error .getFailed

/-- Embeds `std::env::set_current_dir(p)`: set the OS current working directory.
Succeeds iff `p` exists; on failure the OS state is unchanged. -/
def osSet (os : Os) (p : Path) : Except OsError Os :=
  if p ∈ os.dirs then .ok { os with cwd := p } else .error (.notFound p)

/-! ## `src/lib.rs`: `Cwd` and `CwdGuard`

Rust's `Cwd` owns only the `expected_cwd` cell; the OS state is ambient
process state.  The embedding bundles both into one record so that every
operation is a pure state transformer.  The `full_expected_cwd` cargo
feature is passed explicitly as the boolean `ff`. -/

/-- The `Cwd` wrapper from `src/lib.rs` together with the ambient OS state.
`expected_cwd` embeds the `Cell<Option<PathBuf>>` field. -/
structure Cwd where
  os : Os
  expected_cwd : Option Path
deriving DecidableEq, Repr

/-- Embeds `Cwd::new()`: the initial shared state, with no expectation set. -/
def Cwd.new (os : Os) : Cwd :=
  { os := os, expected_cwd := none }

/-- Embeds `Cwd::get` (`src/lib.rs` lines 124-131): wraps `env::current_dir()`;
under the `full_expected_cwd` feature (`ff`), on success it initialises
`expected_cwd` if it was unset. -/
def Cwd.get (ff : Bool) (s : Cwd) : Except OsError Path × Cwd :=
  match osGet s.os with
  | .ok path =>
      if ff && s.expected_cwd.isNone then
        (.ok path, { s with expected_cwd := some path })
      else
        (.ok path, s)
  | .error e => (.error e, s)

/-- Embeds `Cwd::set` (`src/lib.rs` lines 137-143): wraps `env::set_current_dir()`;
under the `full_expected_cwd` feature, on success it records the new path as
the expected directory. -/
def Cwd.set (ff : Bool) (p : Path) (s : Cwd) : Except OsError Unit × Cwd :=
  match osSet s.os p with
  | .ok os2 =>
      if ff then
        (.ok (), { s with os := os2, expected_cwd := some p })
      else
        (.ok (), { s with os := os2 })
  | .error e => (.error e, s)

/-- Embeds `Cwd::get_expected` (`src/lib.rs` lines 110-118): returns the stored
expectation if any; otherwise, under `full_expected_cwd`, falls back to
`self.get().ok()` (which may itself initialise the expectation). -/
def Cwd.get_expected (ff : Bool) (s : Cwd) : Option Path × Cwd :=
  match s.expected_cwd with
  | some p => (some p, s)
  | none =>
      if ff then
        match Cwd.get ff s with
        | (.ok path, s2) => (some path, s2)
        | (.error _, s2) => (none, s2)
      else
        (none, s)

/-- The `CwdGuard` RAII guard from `src/lib.rs`: remembers the directory to
reset to.  (Its `cwd: &mut Cwd` borrow is the explicit `Cwd` state threaded
through each operation.) -/
structure CwdGuard where
  initial_cwd : Path
deriving DecidableEq, Repr

/-- Embeds `TryFrom<&mut Cwd> for CwdGuard` (`src/lib.rs` lines 458-460): reads the
current directory and stores it as `initial_cwd`; on read failure no guard is
produced.  `TryFrom<&mut CwdGuard>` (lines 446-448) delegates to this same
function on the borrowed `Cwd`, so nested-guard construction is this function
as well. -/
def CwdGuard.tryFrom (ff : Bool) (s : Cwd) : Except OsError CwdGuard × Cwd :=
  match Cwd.get ff s with
  | (.ok path, s2) => (.ok { initial_cwd := path }, s2)
  | (.error e, s2) => (.error e, s2)

/-- Embeds `CwdGuard::reset` (`src/lib.rs` lines 416-418): sets the CWD back to
`initial_cwd`. -/
def CwdGuard.reset (ff : Bool) (g : CwdGuard) (s : Cwd) :
    Except OsError Unit × Cwd :=
  Cwd.set ff g.initial_cwd s

/-- Outcome of `Drop for CwdGuard`: either the destructor returned normally,
or it panicked (`panic::panic_any(err)`) carrying the OS error, leaving the
shared state behind. -/
inductive GuardDrop where
  | normal (s : Cwd)
  | panicked (e : OsError) (s : Cwd)
deriving DecidableEq, Repr

/-- The `Cwd` state left behind by a `CwdGuard` destructor, whether it
returned or panicked. -/
def GuardDrop.state : GuardDrop → Cwd
  | .normal s => s
  | .panicked _ s => s

/-- Embeds `Drop for CwdGuard` (`src/lib.rs` lines 424-432): calls `reset()`; on
error it records `initial_cwd` as the expected directory and panics with the
OS error. -/
def CwdGuard.drop (ff : Bool) (g : CwdGuard) (s : Cwd) : GuardDrop :=
  match CwdGuard.reset ff g s with
  | (.ok _, s2) => .normal s2
  | (.error e, s2) => .panicked e { s2 with expected_cwd := some g.initial_cwd }

/-! ## `src/src/scoped/stack.rs`: the scope stack

`Stack` borrows the crate-level `CurrentWorkingDirectory`, whose definition
is not under `src/` (only `scoped.rs`/`stack.rs` use it); per the spec it is
the mutex-guarded shared state holding the `Vec<PathBuf>` scope stack, and
its accessor `get`/`set` are thin pass-throughs to the OS calls.  `Vec` push
and pop act on the END of the list, so the top of the stack is the last
element. -/

/-- Modelled from the spec: the crate-level `CurrentWorkingDirectory` shared
state (its source is not under `src/`), holding the `scope_stack:
Vec<PathBuf>` together with the ambient OS state.  This is the state a
`Stack` borrows mutably. -/
structure LockedCwd where
  os : Os
  scope_stack : List Path
deriving DecidableEq, Repr

/-- Modelled from the spec: `CurrentWorkingDirectoryAccessor::get`, a
pass-through to the OS read primitive (spec section 6: "pass-through to the
OS accessor"). -/
def LockedCwd.get (s : LockedCwd) : Except OsError Path :=
  osGet s.os

/-- Modelled from the spec: `CurrentWorkingDirectoryAccessor::set`, a
pass-through to the OS write primitive; the stack is unaffected. -/
def LockedCwd.set (p : Path) (s : LockedCwd) : Except OsError Unit × LockedCwd :=
  match osSet s.os p with
  | .ok os2 => (.ok (), { s with os := os2 })
  | .error e => (.error e, s)

namespace Stack

/-- Embeds `Stack::as_vec` (`stack.rs` lines 40-42): a read-only view of the
internal collection. -/
def as_vec (s : LockedCwd) : List Path :=
  s.scope_stack

/-- Embeds `Stack::as_mut_vec` (`stack.rs` lines 47-49) gives unrestricted mutable
access to the internal collection; embedded as the ability to replace it. -/
def with_vec (s : LockedCwd) (v : List Path) : LockedCwd :=
  { s with scope_stack := v }

/-- Embeds `Stack::push_scope` (`stack.rs` lines 13-17): reads the current
directory and appends it to the stack; if the read fails, the stack is
untouched. -/
def push_scope (s : LockedCwd) : Except OsError Unit × LockedCwd :=
  match LockedCwd.get s with
  | .ok cwd => (.ok (), { s with scope_stack := s.scope_stack ++ [cwd] })
  | .error e => (.error e, s)

/-- Embeds `Stack::pop_scope` (`stack.rs` lines 24-35): if the stack is empty,
`Ok(None)`; otherwise remove the top entry and try to set the CWD to it.  On
success the entry stays removed; on failure it is pushed back and the error
is returned. -/
def pop_scope (s : LockedCwd) : Except OsError (Option Path) × LockedCwd :=
  match s.scope_stack.getLast? with
  | none => (.ok none, s)
  | some previous =>
      let popped : LockedCwd := { s with scope_stack := s.scope_stack.dropLast }
      match LockedCwd.set previous popped with
      | (.ok _, s2) => (.ok (some previous), s2)
      | (.error e, s2) =>
          (.error e, { s2 with scope_stack := s2.scope_stack ++ [previous] })

end Stack

/-! ## `src/src/scoped.rs`: the scoped guard -/

/-- Embeds `scoped::CurrentWorkingDirectory`: a scope guard over the shared stack.
Its `scope_stack: Stack` borrow is the explicit `LockedCwd` state; the
record keeps the `has_reset` flag. -/
structure ScopedCwd where
  has_reset : Bool
deriving DecidableEq, Repr

/-- Embeds `scoped::CurrentWorkingDirectory::reset` (`scoped.rs` lines 23-31): if
not yet reset, pop a scope; a successful productive pop marks `has_reset`
and returns the popped path, an empty-stack pop returns `Ok(None)` without
marking, and a pop error is propagated without marking. -/
def ScopedCwd.reset (g : ScopedCwd) (s : LockedCwd) :
    Except OsError (Option Path) × ScopedCwd × LockedCwd :=
  if g.has_reset then
    (.ok none, g, s)
  else
    match Stack.pop_scope s with
    | (.ok (some reset_to), s2) => (.ok (some reset_to), { has_reset := true }, s2)
    | (.ok none, s2) => (.ok none, g, s2)
    | (.error e, s2) => (.error e, g, s2)

/-- Embeds `TryFrom<&mut crate::CurrentWorkingDirectory>` (`scoped.rs` lines
75-84): wraps the shared state in a `Stack`, pushes a scope, and on success
yields a guard with `has_reset = false`.  `TryFrom<&mut scoped::…>` (lines
59-63) delegates to this same function on the borrowed stack. -/
def ScopedCwd.tryFrom (s : LockedCwd) : Except OsError ScopedCwd × LockedCwd :=
  match Stack.push_scope s with
  | (.ok _, s2) => (.ok { has_reset := false }, s2)
  | (.error e, s2) => (.error e, s2)

/-- Outcome of `Drop for scoped::CurrentWorkingDirectory`: normal return,
a panic carrying the OS error from the failed reset (the first `expect`),
or a panic because there was nowhere to reset to (the second `expect` on a
`None` pop). -/
inductive ScopedDrop where
  | normal (s : LockedCwd)
  | panickedErr (e : OsError) (s : LockedCwd)
  | panickedEmpty (s : LockedCwd)
deriving DecidableEq, Repr

/-- Embeds `Drop for scoped::CurrentWorkingDirectory` (`scoped.rs` lines 37-44):
if not yet reset, call `reset()` and `expect` both that it succeeded and
that it actually popped a directory; either `expect` failing is a panic. -/
def ScopedCwd.drop (g : ScopedCwd) (s : LockedCwd) : ScopedDrop :=
  if g.has_reset then
    .normal s
  else
    match ScopedCwd.reset g s with
    | (.ok (some _), _, s2) => .normal s2
    | (.ok none, _, s2) => .panickedEmpty s2
    | (.error e, _, s2) => .panickedErr e s2

/-- Iterates `n` successive nested scope-guard creations, threading the shared
state (each creation is `ScopedCwd.tryFrom`). -/
def createN : Nat → LockedCwd → LockedCwd
  | 0, s => s
  | n + 1, s => createN n (ScopedCwd.tryFrom s).2

/-- Iterates `n` successive resets, innermost guard first; each live nested guard
has `has_reset = false` when its reset runs. -/
def resetN : Nat → LockedCwd → LockedCwd
  | 0, s => s
  | n + 1, s => resetN n (ScopedCwd.reset { has_reset := false } s).2.2

/-! ## Helper lemmas -/

/-- A successful `push_scope` appends the current directory. -/
lemma push_scope_ok (s : LockedCwd) (h : s.os.getOk = true) :
    Stack.push_scope s = (.ok (), { s with scope_stack := s.scope_stack ++ [s.os.cwd] }) := by
  simp [Stack.push_scope, LockedCwd.get, osGet, h]

/-- A failing `push_scope` returns the read error and leaves the state
untouched. -/
lemma push_scope_err (s : LockedCwd) (h : s.os.getOk = false) :
    Stack.push_scope s = (.error .getFailed, s) := by
  simp [Stack.push_scope, LockedCwd.get, osGet, h]

/-- Running `pop_scope` on a stack with existing top `p`: the entry is removed and
the OS directory becomes `p`. -/
lemma pop_scope_concat_ok (s : LockedCwd) (xs : List Path) (p : Path)
    (hst : s.scope_stack = xs ++ [p]) (hp : p ∈ s.os.dirs) :
    Stack.pop_scope s =
      (.ok (some p), { s with os := { s.os with cwd := p }, scope_stack := xs }) := by
  simp [Stack.pop_scope, LockedCwd.set, osSet, hst, hp]

/-- Running `pop_scope` on a stack with missing top `p`: the error is returned and
the whole state (stack included) is exactly as before the call. -/
lemma pop_scope_concat_err (s : LockedCwd) (xs : List Path) (p : Path)
    (hst : s.scope_stack = xs ++ [p]) (hp : p ∉ s.os.dirs) :
    Stack.pop_scope s = (.error (.notFound p), s) := by
  simp [Stack.pop_scope, LockedCwd.set, osSet, hst, hp]
  rw [← hst]

/-- Running `pop_scope` on an empty stack does nothing. -/
lemma pop_scope_nil (s : LockedCwd) (h : s.scope_stack = []) :
    Stack.pop_scope s = (.ok none, s) := by
  simp [Stack.pop_scope, h]

/-- A productive `reset` on a not-yet-reset guard: pops the top entry,
sets the OS directory to it and marks the guard. -/
lemma reset_pop (g : ScopedCwd) (s : LockedCwd) (xs : List Path) (p : Path)
    (hg : g.has_reset = false) (hst : s.scope_stack = xs ++ [p]) (hp : p ∈ s.os.dirs) :
    ScopedCwd.reset g s =
      (.ok (some p), { has_reset := true },
        { s with os := { s.os with cwd := p }, scope_stack := xs }) := by
  simp [ScopedCwd.reset, hg, pop_scope_concat_ok s xs p hst hp]

/-- Pair eta: a pair whose first component is known. -/
lemma prod_eta_fst {α β : Type _} (x : α × β) (a : α) (h : x.1 = a) : x = (a, x.2) := by
  cases x
  cases h
  rfl

/-- Reading via `Cwd.get` never changes the OS state. -/
lemma Cwd.get_os (ff : Bool) (s : Cwd) : ((Cwd.get ff s).2).os = s.os := by
  unfold Cwd.get
  split
  · split <;> rfl
  · rfl

/-- Reading via `Cwd.get` returns the OS current directory when the read succeeds. -/
lemma Cwd.get_fst (ff : Bool) (s : Cwd) (h : s.os.getOk = true) :
    (Cwd.get ff s).1 = .ok s.os.cwd := by
  unfold Cwd.get
  simp only [osGet, h, if_true]
  split <;> rfl

/-- A successful `Cwd.set`: returns `Ok(())` and the OS directory becomes
`p` (nothing else in the OS changes). -/
lemma Cwd.set_ok (ff : Bool) (p : Path) (s : Cwd) (h : p ∈ s.os.dirs) :
    (Cwd.set ff p s).1 = .ok () ∧ ((Cwd.set ff p s).2).os = { s.os with cwd := p } := by
  unfold Cwd.set
  simp only [osSet, h, if_true]
  split <;> simp

/-- A successful `Cwd.set` as a pair equation. -/
lemma Cwd.set_eq (ff : Bool) (p : Path) (s : Cwd) (h : p ∈ s.os.dirs) :
    Cwd.set ff p s = (.ok (), (Cwd.set ff p s).2) :=
  prod_eta_fst _ _ (Cwd.set_ok ff p s h).1

/-- Guard construction always leaves behind exactly the state of the
underlying `Cwd.get` call. -/
lemma tryFrom_snd (ff : Bool) (s : Cwd) :
    (CwdGuard.tryFrom ff s).2 = (Cwd.get ff s).2 := by
  unfold CwdGuard.tryFrom
  rcases heq : Cwd.get ff s with ⟨r, t⟩
  cases r <;> simp

/-- Successful guard construction snapshots the current directory. -/
lemma tryFrom_fst (ff : Bool) (s : Cwd) (h : s.os.getOk = true) :
    (CwdGuard.tryFrom ff s).1 = .ok { initial_cwd := s.os.cwd } := by
  unfold CwdGuard.tryFrom
  have h1 := Cwd.get_fst ff s h
  rcases heq : Cwd.get ff s with ⟨r, t⟩
  rw [heq] at h1
  simp only at h1
  subst h1
  simp

/-- Successful guard construction as a pair equation. -/
lemma tryFrom_eq (ff : Bool) (s : Cwd) (h : s.os.getOk = true) :
    CwdGuard.tryFrom ff s = (.ok { initial_cwd := s.os.cwd }, (Cwd.get ff s).2) := by
  rw [← tryFrom_snd ff s]
  exact prod_eta_fst _ _ (tryFrom_fst ff s h)

/-- When the reset target still exists, dropping a `CwdGuard` returns
normally with the state of the underlying `set` call. -/
lemma drop_ok (ff : Bool) (g : CwdGuard) (s : Cwd) (h : g.initial_cwd ∈ s.os.dirs) :
    CwdGuard.drop ff g s = .normal ((Cwd.set ff g.initial_cwd s).2) := by
  unfold CwdGuard.drop CwdGuard.reset
  rw [Cwd.set_eq ff g.initial_cwd s h]

/-- With a working OS read, `k` nested guard creations append `k` snapshots
of the (unchanged) current directory. -/
lemma createN_eq :
    ∀ (k : Nat) (s : LockedCwd), s.os.getOk = true →
      createN k s = { s with scope_stack := s.scope_stack ++ List.replicate k s.os.cwd } := by
  intro k
  induction k with
  | zero => intro s _; simp [createN]
  | succ k ih =>
    intro s h
    rw [createN]
    have hT : (ScopedCwd.tryFrom s).2 = { s with scope_stack := s.scope_stack ++ [s.os.cwd] } := by
      simp [ScopedCwd.tryFrom, push_scope_ok s h]
    rw [hT, ih { s with scope_stack := s.scope_stack ++ [s.os.cwd] } h]
    simp [List.replicate_succ]

/-- While the current directory exists, popping `k ≤ m` of `m` pushed
snapshots removes exactly `k` of them and keeps the OS directory fixed. -/
lemma resetN_eq (s : LockedCwd) (hc : s.os.cwd ∈ s.os.dirs) :
    ∀ (k m : Nat), k ≤ m →
      resetN k { s with scope_stack := s.scope_stack ++ List.replicate m s.os.cwd } =
        { s with scope_stack := s.scope_stack ++ List.replicate (m - k) s.os.cwd } := by
  intro k
  induction k with
  | zero => intro m _; simp [resetN]
  | succ k ih =>
    intro m hkm
    cases m with
    | zero => omega
    | succ m =>
      rw [resetN]
      have hst : ({ s with scope_stack := s.scope_stack ++ List.replicate (m + 1) s.os.cwd }
            : LockedCwd).scope_stack
          = (s.scope_stack ++ List.replicate m s.os.cwd) ++ [s.os.cwd] := by
        simp [List.replicate_succ']
      have hr := reset_pop { has_reset := false } _ _ _ rfl hst hc
      rw [hr]
      have hstate :
          ({ { s with scope_stack := s.scope_stack ++ List.replicate (m + 1) s.os.cwd } with
              os := { ({ s with scope_stack := s.scope_stack ++ List.replicate (m + 1) s.os.cwd }
                : LockedCwd).os with cwd := s.os.cwd },
              scope_stack := s.scope_stack ++ List.replicate m s.os.cwd } : LockedCwd)
            = { s with scope_stack := s.scope_stack ++ List.replicate m s.os.cwd } := rfl
      rw [hstate, ih m (Nat.succ_le_succ_iff.mp hkm)]
      simp [Nat.succ_sub_succ]

/-! ## Claim theorems -/

/-- Claim C2: when the implicit end-of-scope restore of a `CwdGuard` fails
with an OS error, the destructor records the path that should have been
restored as the expected directory and then panics carrying that OS error
(for any feature configuration `ff`). -/
theorem cwd_guard_drop_failure_panics (ff : Bool) (g : CwdGuard) (s : Cwd)
    (h : g.initial_cwd ∉ s.os.dirs) :
    CwdGuard.drop ff g s =
      .panicked (.notFound g.initial_cwd) { s with expected_cwd := some g.initial_cwd } := by
  simp [CwdGuard.drop, CwdGuard.reset, Cwd.set, osSet, h]

/-- Witness for C2: a concrete guard whose reset target is missing. -/
theorem cwd_guard_drop_failure_panics_witness :
    CwdGuard.drop false ⟨"/nope"⟩ ⟨⟨"/w", ["/w"], true⟩, none⟩ =
      .panicked (.notFound "/nope") ⟨⟨"/w", ["/w"], true⟩, some "/nope"⟩ :=
  cwd_guard_drop_failure_panics false ⟨"/nope"⟩ ⟨⟨"/w", ["/w"], true⟩, none⟩ (by decide)

/-- Claim C9: with the `full_expected_cwd` feature disabled, `Cwd::get`
leaves the state untouched, `Cwd::set` never modifies `expected_cwd`,
`Cwd::get_expected` just reads `expected_cwd` (so it is `none` unless
something else set it), manual guard reset never modifies `expected_cwd`,
and a guard drop sets `expected_cwd` to the unrestored path exactly when the
implicit restore fails. -/
theorem default_feature_expected_cwd :
    (∀ s : Cwd, (Cwd.get false s).2 = s) ∧
    (∀ (p : Path) (s : Cwd), ((Cwd.set false p s).2).expected_cwd = s.expected_cwd) ∧
    (∀ s : Cwd, Cwd.get_expected false s = (s.expected_cwd, s)) ∧
    (∀ (g : CwdGuard) (s : Cwd),
      ((CwdGuard.reset false g s).2).expected_cwd = s.expected_cwd) ∧
    (∀ (g : CwdGuard) (s : Cwd),
      (CwdGuard.drop false g s).state.expected_cwd =
        if g.initial_cwd ∈ s.os.dirs then s.expected_cwd else some g.initial_cwd) := by
  refine ⟨?_, ?_, ?_, ?_, ?_⟩
  · intro s
    unfold Cwd.get
    cases h : osGet s.os <;> simp
  · intro p s
    unfold Cwd.set
    cases h : osSet s.os p <;> simp
  · intro s
    unfold Cwd.get_expected
    cases h : s.expected_cwd <;> simp
  · intro g s
    unfold CwdGuard.reset Cwd.set
    cases h : osSet s.os g.initial_cwd <;> simp
  · intro g s
    by_cases h : g.initial_cwd ∈ s.os.dirs
    · rw [drop_ok false g s h]
      simp [GuardDrop.state, h, ((Cwd.set_ok false g.initial_cwd s h)).2]
      unfold Cwd.set
      cases heq : osSet s.os g.initial_cwd <;> simp
    · simp [CwdGuard.drop, CwdGuard.reset, Cwd.set, osSet, h, GuardDrop.state]

/-- Claim C1: for every non-empty scope stack, if `pop_scope` removes the
top entry and the OS set-current-directory call fails, the popped entry is
pushed back so the stack (indeed the whole state) equals its pre-call state,
and the OS error is returned to the caller. -/
theorem pop_scope_failure_restores_stack (s : LockedCwd) (xs : List Path) (p : Path)
    (hst : s.scope_stack = xs ++ [p]) (hp : p ∉ s.os.dirs) :
    Stack.pop_scope s = (.error (.notFound p), s) :=
  pop_scope_concat_err s xs p hst hp

/-- Witness for C1 at a concrete state: the stack still holds the missing
directory after the failed pop. -/
theorem pop_scope_failure_restores_stack_witness :
    Stack.pop_scope ⟨⟨"/w", ["/w"], true⟩, ["/w", "/gone"]⟩ =
      (.error (.notFound "/gone"), ⟨⟨"/w", ["/w"], true⟩, ["/w", "/gone"]⟩) :=
  pop_scope_failure_restores_stack _ ["/w"] "/gone" rfl (by decide)

/-- Claim C3: starting at `D0`, creating an outer guard, setting `D1`,
creating an inner guard, and setting `D2`: dropping the inner guard restores
the CWD to exactly `D1` (the CWD when the inner guard was created), and
dropping the outer guard thereafter restores it to exactly `D0`. -/
theorem lifo_restore_order (ff : Bool) (D0 D1 D2 : Path) (s : Cwd)
    (hD0 : s.os.cwd = D0) (hget : s.os.getOk = true)
    (h0 : D0 ∈ s.os.dirs) (h1 : D1 ∈ s.os.dirs) (h2 : D2 ∈ s.os.dirs) :
    ∃ (outer inner : CwdGuard) (s1 s2 s3 s4 s5 s6 : Cwd),
      CwdGuard.tryFrom ff s = (.ok outer, s1) ∧ outer.initial_cwd = D0 ∧
      Cwd.set ff D1 s1 = (.ok (), s2) ∧ s2.os.cwd = D1 ∧
      CwdGuard.tryFrom ff s2 = (.ok inner, s3) ∧ inner.initial_cwd = D1 ∧
      Cwd.set ff D2 s3 = (.ok (), s4) ∧ s4.os.cwd = D2 ∧
      CwdGuard.drop ff inner s4 = .normal s5 ∧ s5.os.cwd = D1 ∧
      CwdGuard.drop ff outer s5 = .normal s6 ∧ s6.os.cwd = D0 := by
  have hT1 := tryFrom_eq ff s hget
  rw [hD0] at hT1
  have ho1 : ((Cwd.get ff s).2).os = s.os := Cwd.get_os ff s
  have h1' : D1 ∈ ((Cwd.get ff s).2).os.dirs := by rw [ho1]; exact h1
  have hS2 := Cwd.set_eq ff D1 _ h1'
  have ho2 : ((Cwd.set ff D1 ((Cwd.get ff s).2)).2).os = { s.os with cwd := D1 } := by
    rw [(Cwd.set_ok ff D1 _ h1').2, ho1]
  have hget2 : ((Cwd.set ff D1 ((Cwd.get ff s).2)).2).os.getOk = true := by
    rw [ho2]; exact hget
  have hcwd2 : ((Cwd.set ff D1 ((Cwd.get ff s).2)).2).os.cwd = D1 := by rw [ho2]
  have hT3 := tryFrom_eq ff _ hget2
  rw [hcwd2] at hT3
  have ho3 : ((Cwd.get ff ((Cwd.set ff D1 ((Cwd.get ff s).2)).2)).2).os
      = { s.os with cwd := D1 } := by
    rw [Cwd.get_os, ho2]
  have h2' : D2 ∈ ((Cwd.get ff ((Cwd.set ff D1 ((Cwd.get ff s).2)).2)).2).os.dirs := by
    rw [ho3]; exact h2
  have hS4 := Cwd.set_eq ff D2 _ h2'
  have ho4 : ((Cwd.set ff D2 ((Cwd.get ff ((Cwd.set ff D1 ((Cwd.get ff s).2)).2)).2)).2).os
      = { s.os with cwd := D2 } := by
    rw [(Cwd.set_ok ff D2 _ h2').2, ho3]
  have hcwd4 : ((Cwd.set ff D2 ((Cwd.get ff ((Cwd.set ff D1 ((Cwd.get ff s).2)).2)).2)).2).os.cwd
      = D2 := by rw [ho4]
  have hin : (({ initial_cwd := D1 } : CwdGuard)).initial_cwd
      ∈ ((Cwd.set ff D2 ((Cwd.get ff ((Cwd.set ff D1 ((Cwd.get ff s).2)).2)).2)).2).os.dirs := by
    rw [ho4]; exact h1
  have hD5 := drop_ok ff { initial_cwd := D1 } _ hin
  have ho5 : ((Cwd.set ff D1
        ((Cwd.set ff D2 ((Cwd.get ff ((Cwd.set ff D1 ((Cwd.get ff s).2)).2)).2)).2)).2).os
      = { s.os with cwd := D1 } := by
    rw [(Cwd.set_ok ff D1 _ hin).2, ho4]
  have hcwd5 : ((Cwd.set ff D1
        ((Cwd.set ff D2 ((Cwd.get ff ((Cwd.set ff D1 ((Cwd.get ff s).2)).2)).2)).2)).2).os.cwd
      = D1 := by rw [ho5]
  have hout : (({ initial_cwd := D0 } : CwdGuard)).initial_cwd
      ∈ ((Cwd.set ff D1
          ((Cwd.set ff D2 ((Cwd.get ff ((Cwd.set ff D1 ((Cwd.get ff s).2)).2)).2)).2)).2).os.dirs := by
    rw [ho5]; exact h0
  have hD6 := drop_ok ff { initial_cwd := D0 } _ hout
  have ho6 : ((Cwd.set ff D0
        ((Cwd.set ff D1
          ((Cwd.set ff D2 ((Cwd.get ff ((Cwd.set ff D1 ((Cwd.get ff s).2)).2)).2)).2)).2)).2).os
      = { s.os with cwd := D0 } := by
    rw [(Cwd.set_ok ff D0 _ hout).2, ho5]
  have hcwd6 : ((Cwd.set ff D0
        ((Cwd.set ff D1
          ((Cwd.set ff D2 ((Cwd.get ff ((Cwd.set ff D1 ((Cwd.get ff s).2)).2)).2)).2)).2)).2).os.cwd
      = D0 := by rw [ho6]
  exact ⟨{ initial_cwd := D0 }, { initial_cwd := D1 }, _, _, _, _, _, _,
    hT1, rfl, hS2, hcwd2, hT3, rfl, hS4, hcwd4, hD5, hcwd5, hD6, hcwd6⟩

/-- Witness for C3: the spec's concrete scenario starting at `/work` with
nested directories `/work/a` and `/work/a/b`. -/
theorem lifo_restore_order_witness :
    ∃ (outer inner : CwdGuard) (s1 s2 s3 s4 s5 s6 : Cwd),
      CwdGuard.tryFrom false ⟨⟨"/work", ["/work", "/work/a", "/work/a/b"], true⟩, none⟩
          = (.ok outer, s1) ∧ outer.initial_cwd = "/work" ∧
      Cwd.set false "/work/a" s1 = (.ok (), s2) ∧ s2.os.cwd = "/work/a" ∧
      CwdGuard.tryFrom false s2 = (.ok inner, s3) ∧ inner.initial_cwd = "/work/a" ∧
      Cwd.set false "/work/a/b" s3 = (.ok (), s4) ∧ s4.os.cwd = "/work/a/b" ∧
      CwdGuard.drop false inner s4 = .normal s5 ∧ s5.os.cwd = "/work/a" ∧
      CwdGuard.drop false outer s5 = .normal s6 ∧ s6.os.cwd = "/work" :=
  lifo_restore_order false "/work" "/work/a" "/work/a/b"
    ⟨⟨"/work", ["/work", "/work/a", "/work/a/b"], true⟩, none⟩
    rfl rfl (by decide) (by decide) (by decide)

/-- Claim C4: on a guard that has not reset yet, a first productive `reset`
returns `Some p`, and a second `reset` on the resulting guard returns `None`
while leaving the guard and the whole state (OS included) untouched. -/
theorem scoped_reset_idempotent (g : ScopedCwd) (s : LockedCwd) (xs : List Path) (p : Path)
    (hg : g.has_reset = false) (hst : s.scope_stack = xs ++ [p]) (hp : p ∈ s.os.dirs) :
    ∃ g2 s2, ScopedCwd.reset g s = (.ok (some p), g2, s2) ∧
      ScopedCwd.reset g2 s2 = (.ok none, g2, s2) := by
  refine ⟨{ has_reset := true }, _, reset_pop g s xs p hg hst hp, ?_⟩
  simp [ScopedCwd.reset]

/-- Witness for C4: double reset at a concrete one-entry stack. -/
theorem scoped_reset_idempotent_witness :
    ∃ g2 s2,
      ScopedCwd.reset ⟨false⟩ ⟨⟨"/a", ["/b"], true⟩, ["/b"]⟩ = (.ok (some "/b"), g2, s2) ∧
      ScopedCwd.reset g2 s2 = (.ok none, g2, s2) :=
  scoped_reset_idempotent _ _ [] "/b" rfl rfl (by decide)

/-- Claim C5: for any error-free sequence of nested scope-guard creations,
the stack grows by exactly one entry per creation (so its length always
equals the pre-sequence length plus the number of live guards), shrinks by
exactly one per reset, returns exactly to the pre-sequence state once all
guards are reset, and a guard destruction likewise removes exactly one
entry. -/
theorem scope_stack_push_pop_balance (s : LockedCwd)
    (hget : s.os.getOk = true) (hcwd : s.os.cwd ∈ s.os.dirs) :
    (∀ k, (createN k s).scope_stack.length = s.scope_stack.length + k) ∧
    (∀ n k, k ≤ n →
      (resetN k (createN n s)).scope_stack.length = s.scope_stack.length + (n - k)) ∧
    (∀ n, resetN n (createN n s) = s) ∧
    (∀ (t : LockedCwd) (xs : List Path) (q : Path),
      t.scope_stack = xs ++ [q] → q ∈ t.os.dirs →
      ∃ t2, ScopedCwd.drop ⟨false⟩ t = .normal t2 ∧
        t2.scope_stack.length + 1 = t.scope_stack.length) := by
  refine ⟨?_, ?_, ?_, ?_⟩
  · intro k
    rw [createN_eq k s hget]
    simp
  · intro n k hkn
    rw [createN_eq n s hget, resetN_eq s hcwd k n hkn]
    simp
  · intro n
    rw [createN_eq n s hget, resetN_eq s hcwd n n le_rfl]
    simp
  · intro t xs q hst hq
    refine ⟨{ t with os := { t.os with cwd := q }, scope_stack := xs }, ?_, ?_⟩
    · simp [ScopedCwd.drop, reset_pop { has_reset := false } t xs q rfl hst hq]
    · simp [hst]

/-- Witness for C5 at a concrete state: two creations, a partial reset, the
full round trip, and a one-entry destruction. -/
theorem scope_stack_push_pop_balance_witness :
    ((createN 2 ⟨⟨"/w", ["/w"], true⟩, []⟩).scope_stack.length = 0 + 2) ∧
    ((resetN 1 (createN 2 ⟨⟨"/w", ["/w"], true⟩, []⟩)).scope_stack.length = 0 + 1) ∧
    (resetN 2 (createN 2 ⟨⟨"/w", ["/w"], true⟩, []⟩) = ⟨⟨"/w", ["/w"], true⟩, []⟩) ∧
    (∃ t2, ScopedCwd.drop ⟨false⟩ ⟨⟨"/w", ["/w"], true⟩, ["/w"]⟩ = .normal t2 ∧
      t2.scope_stack.length + 1 = (["/w"] : List Path).length) := by
  have h := scope_stack_push_pop_balance ⟨⟨"/w", ["/w"], true⟩, []⟩ rfl (by decide)
  exact ⟨h.1 2, h.2.1 2 1 (by decide), h.2.2.1 2, h.2.2.2 _ [] "/w" rfl (by decide)⟩

/-- Claim C6: guard construction pushes the current OS directory onto the
stack; if the OS read fails, construction returns the error, produces no
guard, and leaves the state (stack included) unmodified. -/
theorem scoped_tryFrom_spec (s : LockedCwd) :
    (s.os.getOk = true →
      ScopedCwd.tryFrom s =
        (.ok { has_reset := false },
          { s with scope_stack := s.scope_stack ++ [s.os.cwd] })) ∧
    (s.os.getOk = false → ScopedCwd.tryFrom s = (.error .getFailed, s)) := by
  constructor
  · intro h
    simp [ScopedCwd.tryFrom, push_scope_ok s h]
  · intro h
    simp [ScopedCwd.tryFrom, push_scope_err s h]

/-- Witness for C6: a concrete successful construction and a concrete failed
one. -/
theorem scoped_tryFrom_spec_witness :
    ScopedCwd.tryFrom ⟨⟨"/w", ["/w"], true⟩, []⟩ =
      (.ok { has_reset := false }, ⟨⟨"/w", ["/w"], true⟩, ["/w"]⟩) ∧
    ScopedCwd.tryFrom ⟨⟨"/w", ["/w"], false⟩, ["/q"]⟩ =
      (.error .getFailed, ⟨⟨"/w", ["/w"], false⟩, ["/q"]⟩) :=
  ⟨(scoped_tryFrom_spec _).1 rfl, (scoped_tryFrom_spec _).2 rfl⟩

/-- Claim C7: `pop_scope` on an empty stack returns `Ok(None)` and leaves
the whole state (stack and OS directory) unchanged; repeating it is the same
no-op. -/
theorem pop_scope_empty_noop (s : LockedCwd) (h : s.scope_stack = []) :
    Stack.pop_scope s = (.ok none, s) ∧
      Stack.pop_scope ((Stack.pop_scope s).2) = (.ok none, s) := by
  have h1 := pop_scope_nil s h
  refine ⟨h1, ?_⟩
  rw [h1]
  exact h1

/-- Witness for C7 at a concrete empty-stack state. -/
theorem pop_scope_empty_noop_witness :
    Stack.pop_scope ⟨⟨"/w", ["/w"], true⟩, []⟩ = (.ok none, ⟨⟨"/w", ["/w"], true⟩, []⟩) ∧
      Stack.pop_scope ((Stack.pop_scope ⟨⟨"/w", ["/w"], true⟩, []⟩).2) =
        (.ok none, ⟨⟨"/w", ["/w"], true⟩, []⟩) :=
  pop_scope_empty_noop _ rfl

/-- C8 counterexample: the raw stack accessor (`Stack`) does expose a
pushing operation — `push_scope` is public on it and appends an entry, here
growing a concrete empty stack to `["/w"]` — refuting "the only operations
it allows are inspecting the stack and popping entries". -/
theorem stack_accessor_pushes_counterexample :
    Stack.push_scope ⟨⟨"/w", ["/w"], true⟩, []⟩ =
      (.ok (), ⟨⟨"/w", ["/w"], true⟩, ["/w"]⟩) := by
  rfl

/-- Claim C8 (amended): the accessor also exposes `push_scope` and raw
mutable access; its inspect operation (`as_vec`) reads the stack without
mutating anything, and its pop operation (`pop_scope`) never increases the
stack length. -/
theorem stack_accessor_pop_inspect_no_push (s : LockedCwd) :
    Stack.as_vec s = s.scope_stack ∧
      ((Stack.pop_scope s).2).scope_stack.length ≤ s.scope_stack.length := by
  refine ⟨rfl, ?_⟩
  rcases s.scope_stack.eq_nil_or_concat with h | ⟨xs, a, h⟩
  · rw [pop_scope_nil s h]
  · rw [List.concat_eq_append] at h
    by_cases hp : a ∈ s.os.dirs
    · rw [pop_scope_concat_ok s xs a h hp]
      simp [h]
    · rw [pop_scope_concat_err s xs a h hp]

/-- Claim C10: dropping a not-yet-reset stack-based guard while the shared
stack is empty panics (the second `expect` fires) instead of completing
normally without restoring anything. -/
theorem scoped_drop_empty_panics (g : ScopedCwd) (s : LockedCwd)
    (hg : g.has_reset = false) (hs : s.scope_stack = []) :
    ScopedCwd.drop g s = .panickedEmpty s := by
  simp [ScopedCwd.drop, hg, ScopedCwd.reset, pop_scope_nil s hs]

/-- Witness for C10 at a concrete empty-stack state. -/
theorem scoped_drop_empty_panics_witness :
    ScopedCwd.drop ⟨false⟩ ⟨⟨"/w", ["/w"], true⟩, []⟩ =
      .panickedEmpty ⟨⟨"/w", ["/w"], true⟩, []⟩ :=
  scoped_drop_empty_panics _ _ rfl rfl

end CurrentDir
